import Mathlib

/-!
Verification of the dsipy trust/signing core against its source.

The Python sources under `src/dsipy/` are shallowly embedded below:
pure functions become Lean functions over `String` / `List Nat` (bytes are
naturals `< 256`); Python code that can raise is embedded with
`Except String` / `Option` results, where an `error` value models the
exception that propagates out of the Python function.

The external Ed25519 primitive (from the `cryptography` dependency, not part
of this repository) is modelled as an idealized deterministic signature
scheme: `ed25519Sign` is injective in the `(key, message)` pair and
`ed25519Verify` accepts exactly the unique valid signature, mirroring the
documented behaviour of `Ed25519PrivateKey.sign` / `Ed25519PublicKey.verify`
(deterministic signatures; verification succeeds only for a matching
key/message/signature triple).
-/

/-! ### Byte-level codecs (`bytes.hex()` / `bytes.fromhex`) -/

/-- Lowercase hex digit for a nibble, as produced by Python `bytes.hex()`. -/
def hexDigitChar (n : Nat) : Char :=
  if n < 10 then Char.ofNat (48 + n) else Char.ofNat (87 + n)

/-- The character stream of Python `bytes.hex()`: two lowercase hex digits
per byte, most significant nibble first. -/
def bytesToHexChars : List Nat → List Char
  | [] => []
  | b :: bs => hexDigitChar (b / 16) :: hexDigitChar (b % 16) :: bytesToHexChars bs

/-- Python `bytes.hex()`. -/
def bytes_to_hex (bs : List Nat) : String :=
  ⟨bytesToHexChars bs⟩

/-- Value of one hex digit (both cases accepted, as in `bytes.fromhex`). -/
def hexDigitVal (c : Char) : Option Nat :=
  if 48 ≤ c.toNat ∧ c.toNat ≤ 57 then some (c.toNat - 48)
  else if 97 ≤ c.toNat ∧ c.toNat ≤ 102 then some (c.toNat - 87)
  else if 65 ≤ c.toNat ∧ c.toNat ≤ 70 then some (c.toNat - 55)
  else none

/-- Parse pairs of hex digits into bytes; `none` models the `ValueError`
raised by `bytes.fromhex` on odd-length or non-hex input.  (The whitespace
tolerance of `bytes.fromhex` is not modelled; no claim depends on it.) -/
def hexPairsToBytes : List Char → Option (List Nat)
  | [] => some []
  | [_] => none
  | c1 :: c2 :: rest => do
    let hi ← hexDigitVal c1
    let lo ← hexDigitVal c2
    let tl ← hexPairsToBytes rest
    pure ((hi * 16 + lo) :: tl)

/-- Python `bytes.fromhex(signature_hex)` as used by the verification
functions in `shared/security.py`. -/
def hex_to_signature (s : String) : Option (List Nat) :=
  hexPairsToBytes s.data

/-! ### UTF-8 encoding (`str.encode("utf-8")`) -/

/-- UTF-8 encoding of one code point (the standard 1-4 byte scheme used by
Python's `str.encode("utf-8")`; Lean `Char` excludes surrogates exactly as
Python `str` forbids encoding them). -/
def utf8EncodeCharNat (c : Char) : List Nat :=
  let v := c.toNat
  if v < 128 then [v]
  else if v < 2048 then [192 + v / 64, 128 + v % 64]
  else if v < 65536 then [224 + v / 4096, 128 + v / 64 % 64, 128 + v % 64]
  else [240 + v / 262144, 128 + v / 4096 % 64, 128 + v / 64 % 64, 128 + v % 64]

/-- UTF-8 encoding of a character sequence. -/
def utf8BytesList (l : List Char) : List Nat :=
  l.foldr (fun c acc => utf8EncodeCharNat c ++ acc) []

/-- Python `s.encode("utf-8")` as a byte list. -/
def utf8Bytes (s : String) : List Nat :=
  utf8BytesList s.data

/-! ### Idealized Ed25519 primitive (external `cryptography` library) -/

/-- Injective encoding of a byte list into a natural number, used only to
build the idealized signature below. -/
def encodeByteList : List Nat → Nat
  | [] => 0
  | b :: bs => Nat.pair b (encodeByteList bs) + 1

/-- Model of `Ed25519PrivateKey.public_key()`: an injective map from private
to public key handles (handles are abstract naturals). -/
def ed25519PubOf (sk : Nat) : Nat := sk

/-- Model of `Ed25519PrivateKey.sign`: the unique, deterministic signature of
a message under a key, as a byte list (base-256 digits of an injective
encoding of the `(key, message)` pair). -/
def ed25519Sign (sk : Nat) (msg : List Nat) : List Nat :=
  Nat.digits 256 (Nat.pair sk (encodeByteList msg))

/-- Model of `Ed25519PublicKey.verify` (returning `true` instead of raising
`InvalidSignature` / returning `None`): accepts exactly the unique valid
signature for the key/message pair. -/
def ed25519Verify (pk : Nat) (sig msg : List Nat) : Bool :=
  decide (sig = ed25519Sign pk msg)

/-! ### `shared/security.py` — endorsement and feed-item signing -/

/-- `canonical_endorsement_string` from `shared/security.py`:
`f"endorse:{endorsee_key_b64}".encode("utf-8")`. -/
def canonical_endorsement_string (endorsee_key_b64 : String) : List Nat :=
  utf8Bytes ("endorse:" ++ endorsee_key_b64)

/-- `sign_endorsement` from `shared/security.py`: sign the canonical
endorsement bytes and return the hex signature. -/
def sign_endorsement (private_key : Nat) (endorsee_key_b64 : String) : String :=
  bytes_to_hex (ed25519Sign private_key (canonical_endorsement_string endorsee_key_b64))

/-- `verify_endorsement_signature` from `shared/security.py`.  The Python
body wraps `public_key.verify(bytes.fromhex(signature_hex), canonical)` in
`try: ... return True / except Exception: return False`, so a failure of
`bytes.fromhex` is caught exactly like a failed verification. -/
def verify_endorsement_signature (public_key : Nat) (endorsee_key_b64 : String)
    (signature_hex : String) : Bool :=
  match hex_to_signature signature_hex with
  | none => false
  | some sig => ed25519Verify public_key sig (canonical_endorsement_string endorsee_key_b64)

/-- `canonical_feed_string` from `shared/security.py`:
`f"{pub_date}\n{title}\n{description_plain}".encode("utf-8")`. -/
def canonical_feed_string (pub_date title description_plain : String) : List Nat :=
  utf8Bytes (pub_date ++ "\n" ++ title ++ "\n" ++ description_plain)

/-- `sign_feed_item` from `shared/security.py` (its debug `print` has no
bearing on the returned value). -/
def sign_feed_item (private_key : Nat) (pub_date title description_plain : String) : String :=
  bytes_to_hex (ed25519Sign private_key (canonical_feed_string pub_date title description_plain))

/-- `verify_feed_signature` from `shared/security.py`; same `try`/`except`
structure as `verify_endorsement_signature`. -/
def verify_feed_signature (public_key : Nat) (pub_date title description_plain : String)
    (signature_hex : String) : Bool :=
  match hex_to_signature signature_hex with
  | none => false
  | some sig => ed25519Verify public_key sig (canonical_feed_string pub_date title description_plain)

/-! ### Helper lemmas for the codec and the crypto model -/

theorem str_data_append (a b : String) : (a ++ b).data = a.data ++ b.data := by
  cases a; cases b; rfl

theorem utf8BytesList_append (l₁ l₂ : List Char) :
    utf8BytesList (l₁ ++ l₂) = utf8BytesList l₁ ++ utf8BytesList l₂ := by
  induction l₁ with
  | nil => rfl
  | cons c cs ih =>
    simp only [List.cons_append, utf8BytesList, List.foldr_cons] at ih ⊢
    rw [ih, List.append_assoc]

theorem utf8Bytes_append (a b : String) :
    utf8Bytes (a ++ b) = utf8Bytes a ++ utf8Bytes b := by
  unfold utf8Bytes
  rw [str_data_append, utf8BytesList_append]

theorem encodeByteList_injective : Function.Injective encodeByteList := by
  intro xs
  induction xs with
  | nil => intro ys h; cases ys with
    | nil => rfl
    | cons y ys => simp [encodeByteList] at h
  | cons x xs ih =>
    intro ys h
    cases ys with
    | nil => simp [encodeByteList] at h
    | cons y ys =>
      simp only [encodeByteList, Nat.add_right_cancel_iff, Nat.pair_eq_pair] at h
      rw [h.1, ih h.2]

theorem ed25519Sign_injective (sk sk' : Nat) (m m' : List Nat)
    (h : ed25519Sign sk m = ed25519Sign sk' m') : sk = sk' ∧ m = m' := by
  have h2 : Nat.pair sk (encodeByteList m) = Nat.pair sk' (encodeByteList m') := by
    have := congrArg (Nat.ofDigits 256) h
    simpa [ed25519Sign, Nat.ofDigits_digits] using this
  rw [Nat.pair_eq_pair] at h2
  exact ⟨h2.1, encodeByteList_injective h2.2⟩

theorem ed25519Sign_bytes_lt (sk : Nat) (m : List Nat) :
    ∀ b ∈ ed25519Sign sk m, b < 256 := by
  intro b hb
  exact Nat.digits_lt_base (by norm_num) hb

theorem hexDigitVal_hexDigitChar (n : Nat) (h : n < 16) :
    hexDigitVal (hexDigitChar n) = some n := by
  interval_cases n <;> decide

theorem hexPairsToBytes_bytesToHexChars (bs : List Nat) (h : ∀ b ∈ bs, b < 256) :
    hexPairsToBytes (bytesToHexChars bs) = some bs := by
  induction bs with
  | nil => rfl
  | cons b bs ih =>
    have hb : b < 256 := h b (List.mem_cons_self b bs)
    have hhi : b / 16 < 16 := by omega
    have hlo : b % 16 < 16 := by omega
    have hbs := ih (fun x hx => h x (List.mem_cons_of_mem b hx))
    simp only [bytesToHexChars, hexPairsToBytes,
      hexDigitVal_hexDigitChar _ hhi, hexDigitVal_hexDigitChar _ hlo, hbs,
      Option.bind_eq_bind, Option.some_bind]
    have : b / 16 * 16 + b % 16 = b := by omega
    rw [this]; rfl

theorem hex_to_signature_bytes_to_hex (bs : List Nat) (h : ∀ b ∈ bs, b < 256) :
    hex_to_signature (bytes_to_hex bs) = some bs :=
  hexPairsToBytes_bytesToHexChars bs h

/-! ### Claims C1–C4: canonicalization and the signature algebra -/

/-- Claim C1: the canonical feed-item byte sequence is the UTF-8 encoding of
publication date, title and plain-text description joined in that fixed
order by single newline separators; the concrete scenario yields the bytes
of `"2025-01-01T00:00:00Z\nHello\nWorld"`; and both `sign_feed_item` and
`verify_feed_signature` sign/verify exactly this sequence. -/
theorem C1_canonical_feed_string (sk pk : Nat) (d t s sigHex : String) :
    canonical_feed_string d t s = utf8Bytes (d ++ "\n" ++ t ++ "\n" ++ s)
  ∧ sign_feed_item sk d t s =
      bytes_to_hex (ed25519Sign sk (utf8Bytes (d ++ "\n" ++ t ++ "\n" ++ s)))
  ∧ (verify_feed_signature pk d t s sigHex = true ↔
      ∃ sig, hex_to_signature sigHex = some sig ∧
        ed25519Verify pk sig (utf8Bytes (d ++ "\n" ++ t ++ "\n" ++ s)) = true)
  ∧ canonical_feed_string "2025-01-01T00:00:00Z" "Hello" "World" =
      utf8Bytes "2025-01-01T00:00:00Z\nHello\nWorld"
  ∧ canonical_feed_string "2025-01-01T00:00:00Z" "Hello" "World" =
      [50,48,50,53,45,48,49,45,48,49,84,48,48,58,48,48,58,48,48,90,10,
       72,101,108,108,111,10,87,111,114,108,100] := by
  refine ⟨rfl, rfl, ?_, by decide, by decide⟩
  unfold verify_feed_signature
  cases hx : hex_to_signature sigHex with
  | none => simp
  | some sig => simp [canonical_feed_string]

/-- Claim C4: the canonical endorsement byte sequence is the UTF-8 encoding
of the ASCII literal `"endorse:"` concatenated with the endorsee key
identifier, with nothing (in particular no newline) appended after it, and
`sign_endorsement` / `verify_endorsement_signature` sign/verify exactly this
sequence. -/
theorem C4_canonical_endorsement_string (sk pk : Nat) (k sigHex : String) :
    canonical_endorsement_string k = utf8Bytes ("endorse:" ++ k)
  ∧ canonical_endorsement_string k = utf8Bytes "endorse:" ++ utf8Bytes k
  ∧ sign_endorsement sk k = bytes_to_hex (ed25519Sign sk (utf8Bytes ("endorse:" ++ k)))
  ∧ (verify_endorsement_signature pk k sigHex = true ↔
      ∃ sig, hex_to_signature sigHex = some sig ∧
        ed25519Verify pk sig (utf8Bytes ("endorse:" ++ k)) = true)
  ∧ canonical_endorsement_string "AAAA" = [101,110,100,111,114,115,101,58,65,65,65,65] := by
  refine ⟨rfl, utf8Bytes_append "endorse:" k, rfl, ?_, by decide⟩
  unfold verify_endorsement_signature
  cases hx : hex_to_signature sigHex with
  | none => simp
  | some sig => simp [canonical_endorsement_string]

/-- Claim C2: for every keypair and message, verifying with the public key
the signature produced by the matching private key over the same canonical
bytes returns `true`, for both the endorsement shape and the feed-item
shape. -/
theorem C2_sign_verify_roundtrip (sk : Nat) (k d t s : String) :
    verify_endorsement_signature (ed25519PubOf sk) k (sign_endorsement sk k) = true
  ∧ verify_feed_signature (ed25519PubOf sk) d t s (sign_feed_item sk d t s) = true := by
  constructor
  · unfold verify_endorsement_signature sign_endorsement
    rw [hex_to_signature_bytes_to_hex _ (ed25519Sign_bytes_lt _ _)]
    simp [ed25519Verify, ed25519PubOf]
  · unfold verify_feed_signature sign_feed_item
    rw [hex_to_signature_bytes_to_hex _ (ed25519Sign_bytes_lt _ _)]
    simp [ed25519Verify, ed25519PubOf]

/-- Claim C3 counterexample: on a structurally malformed (non-hex) signature
text, `verify_endorsement_signature` returns `false` exactly like a failed
cryptographic verification — the `try` block in the source wraps
`bytes.fromhex`, and no `MalformedSignatureError` is raised or even defined
anywhere in the repository.  `hex_to_signature "zz" = none` witnesses that
the input is structurally malformed, yet verification yields `false`. -/
theorem C3_counterexample :
    hex_to_signature "zz" = none
  ∧ verify_endorsement_signature 0 "AAAA" "zz" = false
  ∧ verify_feed_signature 0 "2025" "t" "s" "zz" = false := by
  refine ⟨by decide, by decide, by decide⟩

/-- Claim C3 (amended): verification never raises for any invalid signature
input — a structurally malformed signature text (odd-length or non-hex), a
wrong key, and a tampered message each yield exactly `false`; structural
failures are not distinguished from failed proofs. -/
theorem C3_verify_total_false (sk pk : Nat) (k k' d t s sigHex : String) :
    (hex_to_signature sigHex = none →
      verify_endorsement_signature pk k sigHex = false
      ∧ verify_feed_signature pk d t s sigHex = false)
  ∧ (pk ≠ ed25519PubOf sk →
      verify_endorsement_signature pk k (sign_endorsement sk k) = false)
  ∧ (canonical_endorsement_string k ≠ canonical_endorsement_string k' →
      verify_endorsement_signature (ed25519PubOf sk) k' (sign_endorsement sk k) = false) := by
  refine ⟨fun hnone => ?_, fun hpk => ?_, fun hmsg => ?_⟩
  · constructor
    · unfold verify_endorsement_signature
      rw [hnone]
    · unfold verify_feed_signature
      rw [hnone]
  · unfold verify_endorsement_signature sign_endorsement
    rw [hex_to_signature_bytes_to_hex _ (ed25519Sign_bytes_lt _ _)]
    simp only [ed25519Verify, decide_eq_false_iff_not]
    intro heq
    exact hpk (ed25519Sign_injective _ _ _ _ heq).1.symm
  · unfold verify_endorsement_signature sign_endorsement
    rw [hex_to_signature_bytes_to_hex _ (ed25519Sign_bytes_lt _ _)]
    simp only [ed25519Verify, decide_eq_false_iff_not, ed25519PubOf]
    intro heq
    exact hmsg (ed25519Sign_injective _ _ _ _ heq).2

/-- Witness for the amended claim C3, instantiated at concrete inputs: a
non-hex signature text, a wrong public key, and a different endorsee key. -/
theorem C3_verify_total_false_witness :
    verify_endorsement_signature 1 "a" "zz" = false
  ∧ verify_feed_signature 1 "d" "t" "s" "zz" = false
  ∧ verify_endorsement_signature 1 "a" (sign_endorsement 0 "a") = false
  ∧ verify_endorsement_signature (ed25519PubOf 0) "b" (sign_endorsement 0 "a") = false := by
  refine ⟨((C3_verify_total_false 0 1 "a" "b" "d" "t" "s" "zz").1 (by decide)).1,
          ((C3_verify_total_false 0 1 "a" "b" "d" "t" "s" "zz").1 (by decide)).2,
          (C3_verify_total_false 0 1 "a" "b" "d" "t" "s" "zz").2.1 (by decide),
          (C3_verify_total_false 0 1 "a" "b" "d" "t" "s" "zz").2.2 (by decide)⟩

/-! ### Python string primitives used by `shared/vcard.py`

These model the exact Python operations the parser uses: `str.split(sep)`,
`str.split(sep, 1)`, `str.upper()` / `str.lower()` (restricted to their
ASCII case mapping), `str.strip()`, `str.startswith`, slicing `line[n:]`,
and `int(...)` on decimal text. -/

/-- Python `s.split(sep)` for a one-character separator, on the character
list: always returns at least one (possibly empty) piece. -/
def splitList (sep : Char) : List Char → List (List Char)
  | [] => [[]]
  | c :: cs =>
    let r := splitList sep cs
    if c = sep then [] :: r
    else
      match r with
      | [] => [[c]]
      | h :: t => (c :: h) :: t

/-- Python `s.split(sep)` for a one-character separator. -/
def pySplit (s : String) (sep : Char) : List String :=
  (splitList sep s.data).map (fun l => ⟨l⟩)

/-- One-shot split: Python `s.split(sep, 1)` yields two pieces exactly when
`sep` occurs in `s`; `none` models the single-piece result (whose tuple
unpacking into `header, value` raises `ValueError`). -/
def splitOnceList (sep : Char) : List Char → Option (List Char × List Char)
  | [] => none
  | c :: cs =>
    if c = sep then some ([], cs)
    else
      match splitOnceList sep cs with
      | none => none
      | some (a, b) => some (c :: a, b)

/-- Python `s.split(sep, 1)` when it yields two pieces. -/
def pySplitOnce (s : String) (sep : Char) : Option (String × String) :=
  (splitOnceList sep s.data).map (fun p => (⟨p.1⟩, ⟨p.2⟩))

/-- Python `str.upper()` (ASCII case mapping; the parser only compares
against ASCII parameter names, so the non-ASCII case table is not needed). -/
def pyUpper (s : String) : String :=
  ⟨s.data.map Char.toUpper⟩

/-- Python `str.lower()` (ASCII case mapping). -/
def pyLower (s : String) : String :=
  ⟨s.data.map Char.toLower⟩

/-- Python `str.strip()`: whitespace removed from both ends. -/
def pyStrip (s : String) : String :=
  ⟨((s.data.dropWhile Char.isWhitespace).reverse.dropWhile Char.isWhitespace).reverse⟩

/-- Python slicing `s[n:]` (by code points, as Python indexes `str`). -/
def pyDrop (s : String) (n : Nat) : String :=
  ⟨s.data.drop n⟩

/-- Boolean prefix test on character lists. -/
def isPrefixList : List Char → List Char → Bool
  | [], _ => true
  | _ :: _, [] => false
  | p :: ps, c :: cs => p == c && isPrefixList ps cs

/-- Python `s.startswith(p)`. -/
def pyStartsWith (s p : String) : Bool :=
  isPrefixList p.data s.data

/-- Python `int(text)` on decimal text: optional surrounding whitespace,
optional sign, then ASCII digits; `none` models the `ValueError` raised on
anything else.  (Underscore digit grouping and non-ASCII digits accepted by
CPython are not modelled; no claim depends on them.) -/
def pyInt (s : String) : Option Int :=
  let t := (pyStrip s).data
  let sd : Int × List Char :=
    match t with
    | '-' :: rest => (-1, rest)
    | '+' :: rest => (1, rest)
    | _ => (1, t)
  if sd.2 ≠ [] ∧ sd.2.all Char.isDigit then
    some (sd.1 * ((sd.2.foldl (fun acc c => acc * 10 + (c.toNat - 48)) 0 : Nat) : Int))
  else none

/-- Python truthiness of an optional string (`None` and `""` are falsy). -/
def truthyOptStr : Option String → Bool
  | some s => s ≠ ""
  | none => false

/-! ### `shared/vcard.py` — data structures and parser -/

/-- `PublicKey` dataclass from `shared/vcard.py`. -/
structure PublicKey where
  alg : String
  key_b64 : String
  pref : Option Int := none
deriving DecidableEq

/-- `Endorsement` dataclass from `shared/vcard.py`. -/
structure Endorsement where
  endorsee_key_b64 : String
  signature_hex : String
  date : Option String := none
  confidence : Option String := none
deriving DecidableEq

/-- `RevokedKey` dataclass from `shared/vcard.py`. -/
structure RevokedKey where
  key_b64 : String
  reason : Option String := none
  date : Option String := none
deriving DecidableEq

/-- `Profile` dataclass from `shared/vcard.py`. -/
structure Profile where
  fn : Option String := none
  photo : Option String := none
  capabilities : List String := []
  public_keys : List PublicKey := []
  endorsements : List Endorsement := []
  revocations : List RevokedKey := []
  raw : String := ""
deriving DecidableEq

deriving instance DecidableEq for Except

/-- The parameter-collection loop of `parse_params`: for each `;`-separated
part containing `=`, split once on `=` and record `(k.upper(), v)`.  The
Python `dict` is modelled as the assignment sequence; `paramsGet` below
reads it with last-assignment-wins semantics. -/
def paramsStep (params : List (String × String)) (p : String) : List (String × String) :=
  match pySplitOnce p '=' with
  | some kv => params ++ [(pyUpper kv.1, kv.2)]
  | none => params

/-- The parameter dictionary built from the `;`-separated parts. -/
def paramsOfParts (parts : List String) : List (String × String) :=
  parts.foldl paramsStep []

/-- `parse_params` from `shared/vcard.py`: split the property header on
`;`, skip the property name, and collect `KEY=value` parameters with
upper-cased keys. -/
def parse_params (header : String) : List (String × String) :=
  paramsOfParts ((pySplit header ';').drop 1)

/-- `params.get(k)` / `params[k]` on the modelled dict: the value of the
last assignment to `k`, if any. -/
def paramsGet (params : List (String × String)) (k : String) : Option String :=
  ((params.reverse).find? (fun kv => kv.1 == k)).map (fun kv => kv.2)

/-- One iteration of the `parse_vcard` line loop.  `Except.error` models the
uncaught Python exceptions: tuple unpacking of a one-piece `split(":", 1)`
result, and `int(params["PREF"])` on non-numeric text. -/
def parseLine (profile : Profile) (line : String) : Except String Profile :=
  if pyStartsWith line "FN:" then
    .ok { profile with fn := some (pyDrop line 3) }
  else if pyStartsWith line "PHOTO:" then
    .ok { profile with photo := some (pyDrop line 6) }
  else if pyStartsWith line "KEY;" then
    match pySplitOnce line ':' with
    | none => .error "ValueError: not enough values to unpack"
    | some hv =>
      let params := parse_params hv.1
      match paramsGet params "PREF" with
      | none =>
        .ok { profile with public_keys := profile.public_keys ++
          [{ alg := pyLower ((paramsGet params "ALG").getD ""), key_b64 := hv.2 }] }
      | some pv =>
        match pyInt pv with
        | none => .error "ValueError: invalid literal for int with base 10"
        | some n =>
          .ok { profile with public_keys := profile.public_keys ++
            [{ alg := pyLower ((paramsGet params "ALG").getD ""), key_b64 := hv.2,
               pref := some n }] }
  else if pyStartsWith line "REVKEY;" then
    match pySplitOnce line ':' with
    | none => .error "ValueError: not enough values to unpack"
    | some hv =>
      let params := parse_params hv.1
      .ok { profile with revocations := profile.revocations ++
        [{ key_b64 := hv.2, reason := paramsGet params "REASON",
           date := paramsGet params "DATE" }] }
  else if pyStartsWith line "X-ENDORSE;" then
    match pySplitOnce line ':' with
    | none => .error "ValueError: not enough values to unpack"
    | some hv =>
      let params := parse_params hv.1
      .ok { profile with endorsements := profile.endorsements ++
        [{ endorsee_key_b64 := hv.2, signature_hex := (paramsGet params "SIG").getD "",
           date := paramsGet params "DATE", confidence := paramsGet params "CONFIDENCE" }] }
  else
    .ok profile

/-- The line preprocessing of `parse_vcard`:
`[line.strip() for line in text.splitlines() if line.strip()]`.
Line boundaries are modelled as `\n` (with `\r` of a `\r\n` pair removed by
the strip); the exotic extra boundary characters of `str.splitlines` are
not modelled. -/
def pyLines (text : String) : List String :=
  ((pySplit text '\n').map pyStrip).filter (fun l => l ≠ "")

/-- `parse_vcard` from `shared/vcard.py`: fold the line loop over the
stripped non-empty lines, starting from `Profile(raw=text)`. -/
def parse_vcard (text : String) : Except String Profile :=
  (pyLines text).foldlM parseLine { raw := text }

/-- Modelled from the spec: the repository contains no trust-query function
over a parsed `Profile` (only the parser itself is in the source), so the
query of §3/§8 — "a Profile containing KEY and REVKEY lines with the same
compact identifier must report that key as revoked when queried" — is
modelled by its words: a key identifier is reported revoked exactly when it
appears in the Profile's revocation list, so revocation dominates presence
in `public_keys` regardless of order or preference rank. -/
def key_is_revoked (p : Profile) (k : String) : Bool :=
  p.revocations.any (fun r => r.key_b64 == k)

/-! ### Claims C5–C7 and C10: the identity-record parser -/

/-- Claim C5: whenever a parse yields a Profile in which some key identifier
appears both among the public keys and among the revocations, the trust
query reports it as revoked — revocation dominates presence — and the
concrete KEY/REVKEY scenario parses as expected and reports revoked in both
line orders. -/
theorem C5_revocation_dominates (text : String) (p : Profile) (k : String) :
    (parse_vcard text = .ok p →
      p.public_keys.any (fun pk => pk.key_b64 == k) = true →
      p.revocations.any (fun r => r.key_b64 == k) = true →
      key_is_revoked p k = true)
  ∧ parse_vcard "KEY;ALG=ed25519;PREF=1;ENCODING=b:AAAA\nREVKEY;REASON=compromised:AAAA" =
      .ok { public_keys := [{ alg := "ed25519", key_b64 := "AAAA", pref := some 1 }],
            revocations := [{ key_b64 := "AAAA", reason := some "compromised" }],
            raw := "KEY;ALG=ed25519;PREF=1;ENCODING=b:AAAA\nREVKEY;REASON=compromised:AAAA" }
  ∧ (parse_vcard "KEY;ALG=ed25519;PREF=1;ENCODING=b:AAAA\nREVKEY;REASON=compromised:AAAA").map
      (fun q => key_is_revoked q "AAAA") = .ok true
  ∧ (parse_vcard "REVKEY;REASON=compromised:AAAA\nKEY;ALG=ed25519;PREF=1;ENCODING=b:AAAA").map
      (fun q => key_is_revoked q "AAAA") = .ok true := by
  refine ⟨fun _ _ hrev => hrev, by decide, by decide, by decide⟩

/-- Witness for claim C5 at the concrete KEY/REVKEY scenario. -/
theorem C5_revocation_dominates_witness :
    key_is_revoked
      { public_keys := [{ alg := "ed25519", key_b64 := "AAAA", pref := some 1 }],
        revocations := [{ key_b64 := "AAAA", reason := some "compromised" }],
        raw := "KEY;ALG=ed25519;PREF=1;ENCODING=b:AAAA\nREVKEY;REASON=compromised:AAAA" }
      "AAAA" = true :=
  (C5_revocation_dominates
      "KEY;ALG=ed25519;PREF=1;ENCODING=b:AAAA\nREVKEY;REASON=compromised:AAAA"
      { public_keys := [{ alg := "ed25519", key_b64 := "AAAA", pref := some 1 }],
        revocations := [{ key_b64 := "AAAA", reason := some "compromised" }],
        raw := "KEY;ALG=ed25519;PREF=1;ENCODING=b:AAAA\nREVKEY;REASON=compromised:AAAA" }
      "AAAA").1 (by decide) (by decide) (by decide)

/-- Claim C6 counterexample: a `KEY` line whose `PREF` parameter is present
but non-numeric makes `parse_vcard` abort with the `ValueError` raised by
`int(params["PREF"])` — the claim that the PREF value is ignored and the
PublicKey entry still appended is false on the code. -/
theorem C6_counterexample :
    parse_vcard "KEY;ALG=ed25519;PREF=abc:AAAA" =
      .error "ValueError: invalid literal for int with base 10" := by decide

/-- Claim C6 (amended): for every `KEY;<params>:<value>` line whose `PREF`
parameter is present but non-numeric, the line loop aborts the parse with
the `ValueError` from `int(params["PREF"])`; no PublicKey entry is
appended and no Profile is returned. -/
theorem C6_nonnumeric_pref_raises (p : Profile) (line header value pv : String)
    (hFN : pyStartsWith line "FN:" = false)
    (hPHOTO : pyStartsWith line "PHOTO:" = false)
    (hKEY : pyStartsWith line "KEY;" = true)
    (hsplit : pySplitOnce line ':' = some (header, value))
    (hpref : paramsGet (parse_params header) "PREF" = some pv)
    (hint : pyInt pv = none) :
    parseLine p line = .error "ValueError: invalid literal for int with base 10" := by
  simp [parseLine, hFN, hPHOTO, hKEY, hsplit, hpref, hint]

/-- Witness for the amended claim C6 at the concrete non-numeric-PREF line. -/
theorem C6_nonnumeric_pref_raises_witness :
    parseLine {} "KEY;ALG=ed25519;PREF=abc:AAAA" =
      .error "ValueError: invalid literal for int with base 10" :=
  C6_nonnumeric_pref_raises {} "KEY;ALG=ed25519;PREF=abc:AAAA"
    "KEY;ALG=ed25519;PREF=abc" "AAAA" "abc"
    (by decide) (by decide) (by decide) (by decide) (by decide) (by decide)

/-- A line recognized by none of the five `startswith` tests of the
`parse_vcard` loop. -/
def isUnrecognized (l : String) : Bool :=
  !(pyStartsWith l "FN:" || pyStartsWith l "PHOTO:" || pyStartsWith l "KEY;" ||
    pyStartsWith l "REVKEY;" || pyStartsWith l "X-ENDORSE;")

theorem parseLine_unrecognized (p : Profile) (l : String)
    (h : isUnrecognized l = true) : parseLine p l = .ok p := by
  simp only [isUnrecognized, Bool.not_eq_true', Bool.or_eq_false_iff] at h
  obtain ⟨⟨⟨⟨h1, h2⟩, h3⟩, h4⟩, h5⟩ := h
  simp [parseLine, h1, h2, h3, h4, h5]

theorem foldlM_parseLine_unrecognized (ls : List String) (p : Profile)
    (h : ∀ l ∈ ls, isUnrecognized l = true) :
    List.foldlM parseLine p ls = .ok p := by
  induction ls generalizing p with
  | nil => rfl
  | cons a as ih =>
    rw [List.foldlM_cons, parseLine_unrecognized p a (h a (List.mem_cons_self a as))]
    exact ih p (fun l hl => h l (List.mem_cons_of_mem a hl))

/-- Claim C7 counterexample: `parse_vcard` does not return a Profile for
every input — a recognized `KEY;` line with no `:` aborts the whole parse
with the `ValueError` raised by unpacking `line.split(":", 1)`. -/
theorem C7_counterexample :
    parse_vcard "KEY;ALG=ed25519" = .error "ValueError: not enough values to unpack" := by
  decide

/-- Claim C7 (amended): unrecognized lines are skipped and appear in no
parsed collection — a line recognized by none of the five prefixes leaves
the profile unchanged, a text consisting only of such lines parses to the
empty Profile (carrying only `raw`), and `X-UNKNOWN;FOO=1:bar` in
particular does not raise and appears in no collection; however
recognized-but-malformed lines (a `KEY;`/`REVKEY;`/`X-ENDORSE;` line
without `:`, or a non-numeric `PREF`) do abort the parse. -/
theorem C7_unknown_lines_skipped (p : Profile) (line text : String) :
    (isUnrecognized line = true → parseLine p line = .ok p)
  ∧ ((∀ l ∈ pyLines text, isUnrecognized l = true) → parse_vcard text = .ok { raw := text })
  ∧ parse_vcard "X-UNKNOWN;FOO=1:bar" = .ok { raw := "X-UNKNOWN;FOO=1:bar" } := by
  refine ⟨parseLine_unrecognized p line,
          fun h => foldlM_parseLine_unrecognized _ _ h, by decide⟩

/-- Witness for the amended claim C7: a concrete unknown line leaves the
profile unchanged and a concrete unknown-only text parses to the empty
Profile. -/
theorem C7_unknown_lines_skipped_witness :
    parseLine {} "X-TEST:1" = .ok {}
  ∧ parse_vcard "hello world" = .ok { raw := "hello world" } :=
  ⟨(C7_unknown_lines_skipped {} "X-TEST:1" "hello world").1 (by decide),
   (C7_unknown_lines_skipped {} "X-TEST:1" "hello world").2.1 (by decide)⟩

theorem splitOnceList_no_sep_append (sep : Char) (k v : List Char) (h : sep ∉ k) :
    splitOnceList sep (k ++ sep :: v) = some (k, v) := by
  induction k with
  | nil => simp [splitOnceList]
  | cons c cs ih =>
    have hc : ¬ c = sep := fun hc => h (hc ▸ List.mem_cons_self c cs)
    have ih' := ih (fun hm => h (List.mem_cons_of_mem c hm))
    simp only [List.cons_append, splitOnceList, if_neg hc, List.append_eq, ih']

theorem pySplitOnce_key_value (k v : String) (h : '=' ∉ k.data) :
    pySplitOnce (k ++ "=" ++ v) '=' = some (k, v) := by
  unfold pySplitOnce
  have hd : (k ++ "=" ++ v).data = k.data ++ '=' :: v.data := by
    rw [str_data_append, str_data_append]
    show k.data ++ ['='] ++ v.data = _
    rw [List.append_assoc]
    rfl
  rw [hd, splitOnceList_no_sep_append _ _ _ h]
  rfl

theorem paramsStep_foldl_map (kvs : List (String × String))
    (acc : List (String × String)) (h : ∀ kv ∈ kvs, '=' ∉ kv.1.data) :
    List.foldl paramsStep acc (kvs.map (fun kv => kv.1 ++ "=" ++ kv.2)) =
      acc ++ kvs.map (fun kv => (pyUpper kv.1, kv.2)) := by
  induction kvs generalizing acc with
  | nil => simp
  | cons kv kvs ih =>
    have hkv : '=' ∉ kv.1.data := h kv (List.mem_cons_self kv kvs)
    simp only [List.map_cons, List.foldl_cons, paramsStep,
      pySplitOnce_key_value kv.1 kv.2 hkv]
    rw [ih _ (fun x hx => h x (List.mem_cons_of_mem kv hx)), List.append_assoc]
    rfl

/-- Claim C10: parameter names in property headers are matched
case-insensitively — `parse_params` upper-cases every parameter key before
storing it, while parameter values keep their original case; consequently
lower- or mixed-case parameter names on `KEY`/`REVKEY`/`X-ENDORSE` lines
parse identically to their upper-case forms. -/
theorem C10_param_keys_case_insensitive (kvs : List (String × String)) :
    ((∀ kv ∈ kvs, '=' ∉ kv.1.data) →
      paramsOfParts (kvs.map (fun kv => kv.1 ++ "=" ++ kv.2)) =
        kvs.map (fun kv => (pyUpper kv.1, kv.2)))
  ∧ (parse_vcard "X-ENDORSE;sig=abcd;Date=2026:KB").map Profile.endorsements =
      (parse_vcard "X-ENDORSE;SIG=abcd;DATE=2026:KB").map Profile.endorsements
  ∧ (parse_vcard "X-ENDORSE;sig=abcd;Date=2026:KB").map Profile.endorsements =
      .ok [{ endorsee_key_b64 := "KB", signature_hex := "abcd", date := some "2026" }]
  ∧ (parse_vcard "KEY;Alg=ED25519;Pref=2:KB").map Profile.public_keys =
      (parse_vcard "KEY;ALG=ED25519;PREF=2:KB").map Profile.public_keys
  ∧ (parse_vcard "REVKEY;reason=lost;date=2025:KB").map Profile.revocations =
      (parse_vcard "REVKEY;REASON=lost;DATE=2025:KB").map Profile.revocations := by
  refine ⟨fun h => paramsStep_foldl_map kvs [] h, by decide, by decide, by decide, by decide⟩

/-- Witness for claim C10: a concrete mixed-case parameter is stored with an
upper-cased key and an unchanged value. -/
theorem C10_param_keys_case_insensitive_witness :
    paramsOfParts ([(("Sig" : String), ("aBcD" : String))].map (fun kv => kv.1 ++ "=" ++ kv.2)) =
      [(("Sig" : String), ("aBcD" : String))].map (fun kv => (pyUpper kv.1, kv.2)) :=
  (C10_param_keys_case_insensitive [("Sig", "aBcD")]).1 (by decide)

/-! ### `apps/feeds/lib/utils.py` and `apps/feeds/lib/feed.py` -/

/-- A lowercase ASCII letter or digit. -/
def slugAlnum (c : Char) : Bool :=
  (97 ≤ c.toNat && c.toNat ≤ 122) || (48 ≤ c.toNat && c.toNat ≤ 57)

/-- The `re.sub(r"[^a-z0-9]+", "-", text)` step of `slugify`: each maximal
run of non-alphanumerics becomes a single hyphen. -/
def collapseNonAlnum : List Char → List Char
  | [] => []
  | c :: cs =>
    if slugAlnum c then c :: collapseNonAlnum cs
    else
      match collapseNonAlnum cs with
      | '-' :: rest => '-' :: rest
      | rest => '-' :: rest

/-- `slugify` from `apps/feeds/lib/utils.py`, modelled for ASCII input (the
NFKD transliteration step is the identity there; non-ASCII characters are
dropped as `encode("ascii", "ignore")` does after decomposition, without
modelling the decomposition itself): lowercase, collapse non-alphanumeric
runs to single hyphens, strip leading/trailing hyphens. -/
def slugify (text : String) : String :=
  let ascii := text.data.filter (fun c => c.toNat < 128)
  let lowered := ascii.map Char.toLower
  let collapsed := collapseNonAlnum lowered
  ⟨((collapsed.dropWhile (fun c => c = '-')).reverse.dropWhile (fun c => c = '-')).reverse⟩

/-- Python truthy-or: `a or b` for an optional/empty string `a`. -/
def pyOrStr (o : Option String) (dflt : String) : String :=
  match o with
  | some s => if s = "" then dflt else s
  | none => dflt

/-- Python `str(x)` for an optional string (`str(None) = "None"`), as an
f-string renders the `.get(...)` results that `generate_rss` passes to
`sign_feed_item`. -/
def pyStrOpt : Option String → String
  | some s => s
  | none => "None"

/-- The `sign` argument of `generate_rss`: a dict with a private-key handle
under `"key"` and a signer identifier under `"id"`; `none` in a field
models a falsy (`None`/empty) dict value, and an absent dict is the
`sign=None` mode. -/
structure SignContext where
  key : Option Nat
  id : Option String
deriving DecidableEq

/-- One entry of the `items` argument of `generate_rss` (a dict; `date` and
`path` are accessed with `[...]` and are therefore required, the rest are
read with `.get`). -/
structure FeedItemInput where
  id : Option String := none
  path : String := ""
  date : String := ""
  content : Option String := none
  title : Option String := none
  link : Option String := none
deriving DecidableEq

/-- The `Signature` extension attached to an item: the hex signature value
and the `keyId` attribute (stored exactly as taken from `sign["id"]`). -/
structure SignatureExt where
  signature_value : Option String
  key_id : Option String
deriving DecidableEq

/-- The fields of an `rfeed.Item` that `generate_rss` constructs (the XML
rendering by the external `rfeed` library is not modelled). -/
structure RssItem where
  title : Option String
  link : String
  description : Option String
  author : String
  guid : String
  pubDate : String
  extensions : List (Option SignatureExt)
deriving DecidableEq

/-- The body of the `for item in items` loop of `generate_rss` from
`apps/feeds/lib/feed.py`.  When `sign` is falsy the loop skips the
`signature_value` / `signature_id` assignments but still reads
`signature_value` in the extensions expression of `Item(...)`: the
`Except.error` models the `UnboundLocalError` this raises. -/
def processItem (link authorName authorEmail : String) (sign : Option SignContext)
    (item : FeedItemInput) : Except String RssItem :=
  let id := pyOrStr item.id (slugify item.path)
  let pub_date := item.date
  let description := item.content
  let title := item.title
  match sign with
  | none => .error "UnboundLocalError: local variable referenced before assignment"
  | some sctx =>
    let signature_value : Option String :=
      match sctx.key with
      | some k => some (sign_feed_item k pub_date (pyStrOpt title) (pyStrOpt description))
      | none => none
    let signature_id := sctx.id
    .ok {
      title := title
      link := pyOrStr item.link (link ++ "/feed/" ++ id)
      description := description
      author := authorName ++ " (" ++ authorEmail ++ ")"
      guid := id
      pubDate := pub_date
      extensions := [
        if truthyOptStr signature_value && truthyOptStr signature_id then
          some { signature_value := signature_value, key_id := sctx.id }
        else none ] }

/-- `generate_rss` from `apps/feeds/lib/feed.py`, modelled up to the item
list it builds (the surrounding `Feed` object and its XML serialization
belong to the external `rfeed` library).  The unused parameters mirror the
Python signature. -/
def generate_rss (title link description : String) (authorName authorEmail : String)
    (language build_date : String) (items : List FeedItemInput)
    (sign : Option SignContext) : Except String (List RssItem) :=
  items.mapM (processItem link authorName authorEmail sign)

theorem utf8EncodeCharNat_ne_nil (c : Char) : utf8EncodeCharNat c ≠ [] := by
  unfold utf8EncodeCharNat
  intro h
  by_cases h1 : c.toNat < 128
  · simp [h1] at h
  · by_cases h2 : c.toNat < 2048
    · simp [h1, h2] at h
    · by_cases h3 : c.toNat < 65536
      · simp [h1, h2, h3] at h
      · simp [h1, h2, h3] at h

theorem utf8BytesList_ne_nil (l : List Char) (h : l ≠ []) : utf8BytesList l ≠ [] := by
  cases l with
  | nil => exact absurd rfl h
  | cons c cs =>
    show utf8EncodeCharNat c ++ _ ≠ []
    intro hx
    exact utf8EncodeCharNat_ne_nil c (List.append_eq_nil.mp hx).1

theorem canonical_feed_string_ne_nil (d t s : String) :
    canonical_feed_string d t s ≠ [] := by
  unfold canonical_feed_string utf8Bytes
  apply utf8BytesList_ne_nil
  have hdata : (d ++ "\n" ++ t ++ "\n" ++ s).data =
      d.data ++ '\n' :: (t.data ++ '\n' :: s.data) := by
    rw [str_data_append, str_data_append, str_data_append, str_data_append]
    have hnl : ("\n" : String).data = ['\n'] := rfl
    rw [hnl]
    simp [List.append_assoc]
  rw [hdata]
  simp

theorem nat_pair_pos (a b : Nat) (hb : b ≠ 0) : Nat.pair a b ≠ 0 := by
  have hb0 : 0 < b := Nat.pos_of_ne_zero hb
  unfold Nat.pair
  split <;> intro h <;> nlinarith

theorem sign_feed_item_ne_empty (k : Nat) (d t s : String) :
    sign_feed_item k d t s ≠ "" := by
  unfold sign_feed_item bytes_to_hex
  intro h
  have hdata : bytesToHexChars (ed25519Sign k (canonical_feed_string d t s)) = [] :=
    congrArg String.data h
  cases hsig : ed25519Sign k (canonical_feed_string d t s) with
  | nil =>
    have hzero : Nat.pair k (encodeByteList (canonical_feed_string d t s)) = 0 :=
      Nat.digits_eq_nil_iff_eq_zero.mp hsig
    have henc : encodeByteList (canonical_feed_string d t s) ≠ 0 := by
      cases hc : canonical_feed_string d t s with
      | nil => exact absurd hc (canonical_feed_string_ne_nil d t s)
      | cons b bs => simp [encodeByteList]
    exact nat_pair_pos _ _ henc hzero
  | cons b bs =>
    rw [hsig] at hdata
    simp [bytesToHexChars] at hdata

/-! ### Claim C8: the unsigned feed mode -/

/-- Claim C8 (code bug): calling `generate_rss` with a non-empty item list
and `sign = None` does not emit unsigned items — it fails on the first
item, because `signature_value` / `signature_id` are assigned only inside
`if sign:` yet `signature_value` is read unconditionally in the
`extensions` expression of `Item(...)` (an `UnboundLocalError`); when a
signing context with a truthy key and id is supplied, each item does get
the `(signature_hex, keyId)` pair attached as its extension. -/
theorem C8_unsigned_mode_raises (k : Nat) (i : String) (item : FeedItemInput)
    (link authorName authorEmail : String) (hi : i ≠ "") :
    generate_rss "FeedTitle" "http://h" "FeedDesc" "Au" "au@example" "en" "now"
        [{ id := some "item-1", path := "p", date := "2025-01-01",
           content := some "c", title := some "T", link := some "http://x" }] none =
      .error "UnboundLocalError: local variable referenced before assignment"
  ∧ processItem link authorName authorEmail (some { key := some k, id := some i }) item =
      .ok {
        title := item.title
        link := pyOrStr item.link (link ++ "/feed/" ++ pyOrStr item.id (slugify item.path))
        description := item.content
        author := authorName ++ " (" ++ authorEmail ++ ")"
        guid := pyOrStr item.id (slugify item.path)
        pubDate := item.date
        extensions := [some {
          signature_value :=
            some (sign_feed_item k item.date (pyStrOpt item.title) (pyStrOpt item.content))
          key_id := some i }] } := by
  constructor
  · decide
  · unfold processItem
    have hsv : truthyOptStr
        (some (sign_feed_item k item.date (pyStrOpt item.title) (pyStrOpt item.content))) = true := by
      simp [truthyOptStr, sign_feed_item_ne_empty]
    have hid : truthyOptStr (some i) = true := by simp [truthyOptStr, hi]
    simp only [hsv, hid, Bool.and_self, if_pos]

/-- Witness for claim C8 at a concrete signing context and item. -/
theorem C8_unsigned_mode_raises_witness :
    generate_rss "FeedTitle" "http://h" "FeedDesc" "Au" "au@example" "en" "now"
        [{ id := some "item-1", path := "p", date := "2025-01-01",
           content := some "c", title := some "T", link := some "http://x" }] none =
      .error "UnboundLocalError: local variable referenced before assignment"
  ∧ processItem "http://h" "Au" "au@example" (some { key := some 7, id := some "KID" })
        { id := some "item-1", path := "p", date := "2025-01-01",
          content := some "c", title := some "T", link := some "http://x" } =
      .ok {
        title := some "T"
        link := pyOrStr (some "http://x") ("http://h" ++ "/feed/" ++ pyOrStr (some "item-1") (slugify "p"))
        description := some "c"
        author := "Au" ++ " (" ++ "au@example" ++ ")"
        guid := pyOrStr (some "item-1") (slugify "p")
        pubDate := "2025-01-01"
        extensions := [some {
          signature_value := some (sign_feed_item 7 "2025-01-01" (pyStrOpt (some "T")) (pyStrOpt (some "c")))
          key_id := some "KID" }] } :=
  ⟨(C8_unsigned_mode_raises 7 "KID"
      { id := some "item-1", path := "p", date := "2025-01-01",
        content := some "c", title := some "T", link := some "http://x" }
      "http://h" "Au" "au@example" (by decide)).1,
   (C8_unsigned_mode_raises 7 "KID"
      { id := some "item-1", path := "p", date := "2025-01-01",
        content := some "c", title := some "T", link := some "http://x" }
      "http://h" "Au" "au@example" (by decide)).2⟩

/-! ### `build_vcard_content` from `shared/vcard.py` (claim C9) -/

/-- One entry of the `keys` argument of `build_vcard_content`: a dict with
`alg`, `key_b64`, optional `pref` (default 1 via `.get("pref", 1)`) and
`encoding`. -/
structure VCardKeyInput where
  alg : String
  key_b64 : String
  pref : Option Int := none
  encoding : String
deriving DecidableEq

/-- The `KEY;TYPE=public;...` line rendered for one key by the f-string in
`build_vcard_content`. -/
def keyLine (key : VCardKeyInput) : String :=
  "KEY;TYPE=public;ALG=" ++ pyLower key.alg ++ ";PREF=" ++ toString (key.pref.getD 1) ++
    ";ENCODING=" ++ key.encoding ++ ":" ++ key.key_b64

/-- `build_vcard_content` from `shared/vcard.py`: the sequential
`vcard_content += ...` appends, each guarded by the truthiness of its
field; `None` custom attributes / keys are modelled by empty lists (the
loops are no-ops either way). -/
def build_vcard_content
    (fn n nickname lang gender email categories bday anniversary kind adr tel impp
      photo note url source : Option String)
    (custom_attributes : List (String × String)) (keys : List VCardKeyInput) : String :=
  let c := "BEGIN:VCARD\nVERSION:4.0\n"
    ++ (if truthyOptStr fn then ("FN:" ++ fn.getD "") ++ "\n" else "")
    ++ (if truthyOptStr n then ("N:" ++ n.getD "" ++ ";;;;") ++ "\n" else "")
    ++ (if truthyOptStr nickname then ("NICKNAME:" ++ nickname.getD "") ++ "\n" else "")
    ++ (if truthyOptStr lang then ("LANG:" ++ lang.getD "") ++ "\n" else "")
    ++ (if truthyOptStr gender then ("GENDER:" ++ gender.getD "") ++ "\n" else "")
    ++ (if truthyOptStr email then ("EMAIL:" ++ email.getD "") ++ "\n" else "")
    ++ (if truthyOptStr categories then ("CATEGORIES:" ++ categories.getD "") ++ "\n" else "")
    ++ (if truthyOptStr bday then ("BDAY:" ++ bday.getD "") ++ "\n" else "")
    ++ (if truthyOptStr anniversary then ("ANNIVERSARY:" ++ anniversary.getD "") ++ "\n" else "")
    ++ (if truthyOptStr kind then ("KIND:" ++ kind.getD "") ++ "\n" else "")
    ++ (if truthyOptStr adr then ("ADR:" ++ adr.getD "") ++ "\n" else "")
    ++ (if truthyOptStr tel then ("TEL:" ++ tel.getD "") ++ "\n" else "")
    ++ (if truthyOptStr impp then ("IMPP:" ++ impp.getD "") ++ "\n" else "")
    ++ (if truthyOptStr photo then ("PHOTO:" ++ photo.getD "") ++ "\n" else "")
    ++ (if truthyOptStr note then ("NOTE;LANGUAGE=en-US:" ++ note.getD "") ++ "\n" else "")
    ++ (if truthyOptStr url then ("URL:" ++ url.getD "") ++ "\n" else "")
    ++ (if truthyOptStr source then ("SOURCE:" ++ source.getD "") ++ "\n" else "")
  let c := keys.foldl (fun acc key => acc ++ keyLine key ++ "\n") c
  let c := custom_attributes.foldl (fun acc kv => acc ++ (kv.1 ++ ":" ++ kv.2) ++ "\n") c
  c ++ "END:VCARD"

/-- The rendered line for one optional field: `none` when the field is
empty or absent (so no line at all is emitted for it). -/
def optFieldLine (render : String → String) (v : Option String) : Option String :=
  match v with
  | some s => if s = "" then none else some (render s)
  | none => none

/-- Spec-side rendition of claim C9: the line list of the built record —
the fixed header, one line per populated field in the fixed field order,
one `KEY;TYPE=public;...` line per key, the custom attribute lines, and
the footer. -/
def vcard_spec_lines
    (fn n nickname lang gender email categories bday anniversary kind adr tel impp
      photo note url source : Option String)
    (custom_attributes : List (String × String)) (keys : List VCardKeyInput) : List String :=
  ["BEGIN:VCARD", "VERSION:4.0"]
  ++ (List.filterMap id
      [optFieldLine (fun s => "FN:" ++ s) fn,
       optFieldLine (fun s => "N:" ++ s ++ ";;;;") n,
       optFieldLine (fun s => "NICKNAME:" ++ s) nickname,
       optFieldLine (fun s => "LANG:" ++ s) lang,
       optFieldLine (fun s => "GENDER:" ++ s) gender,
       optFieldLine (fun s => "EMAIL:" ++ s) email,
       optFieldLine (fun s => "CATEGORIES:" ++ s) categories,
       optFieldLine (fun s => "BDAY:" ++ s) bday,
       optFieldLine (fun s => "ANNIVERSARY:" ++ s) anniversary,
       optFieldLine (fun s => "KIND:" ++ s) kind,
       optFieldLine (fun s => "ADR:" ++ s) adr,
       optFieldLine (fun s => "TEL:" ++ s) tel,
       optFieldLine (fun s => "IMPP:" ++ s) impp,
       optFieldLine (fun s => "PHOTO:" ++ s) photo,
       optFieldLine (fun s => "NOTE;LANGUAGE=en-US:" ++ s) note,
       optFieldLine (fun s => "URL:" ++ s) url,
       optFieldLine (fun s => "SOURCE:" ++ s) source])
  ++ keys.map keyLine
  ++ custom_attributes.map (fun kv => kv.1 ++ ":" ++ kv.2)
  ++ ["END:VCARD"]

/-- Join a line list with newline separators (no trailing newline). -/
def joinNL : List String → String
  | [] => ""
  | [l] => l
  | l :: ls => l ++ "\n" ++ joinNL ls

/-- Concatenation of lines, each followed by a newline. -/
def linesCat : List String → String
  | [] => ""
  | l :: ls => l ++ "\n" ++ linesCat ls

/-- A rendered optional line followed by a newline, or nothing. -/
def optNL : Option String → String
  | some s => s ++ "\n"
  | none => ""

theorem str_append_empty (s : String) : s ++ "" = s := by
  cases s with
  | mk l =>
    show String.mk (l ++ []) = String.mk l
    rw [List.append_nil]

theorem str_empty_append (s : String) : "" ++ s = s := by
  cases s with
  | mk l =>
    show String.mk ([] ++ l) = String.mk l
    rw [List.nil_append]

theorem str_append_assoc (a b c : String) : a ++ b ++ c = a ++ (b ++ c) := by
  cases a with
  | mk la =>
    cases b with
    | mk lb =>
      cases c with
      | mk lc =>
        show String.mk (la ++ lb ++ lc) = String.mk (la ++ (lb ++ lc))
        rw [List.append_assoc]

theorem linesCat_append (l₁ l₂ : List String) :
    linesCat (l₁ ++ l₂) = linesCat l₁ ++ linesCat l₂ := by
  induction l₁ with
  | nil => exact (str_empty_append _).symm
  | cons a as ih =>
    show (a ++ "\n") ++ linesCat (as ++ l₂) = ((a ++ "\n") ++ linesCat as) ++ linesCat l₂
    rw [ih]
    simp [str_append_assoc]

theorem joinNL_append_last (ls : List String) (e : String) :
    joinNL (ls ++ [e]) = linesCat ls ++ e := by
  induction ls with
  | nil => exact (str_empty_append e).symm
  | cons a as ih =>
    cases h : as ++ [e] with
    | nil => exact absurd (congrArg List.length h) (by simp)
    | cons y rest =>
      show joinNL (a :: (as ++ [e])) = ((a ++ "\n") ++ linesCat as) ++ e
      rw [h]
      show (a ++ "\n") ++ joinNL (y :: rest) = ((a ++ "\n") ++ linesCat as) ++ e
      rw [← h, ih]
      simp [str_append_assoc]

theorem linesCat_filterMap_cons (o : Option String) (os : List (Option String)) :
    linesCat (List.filterMap id (o :: os)) =
      optNL o ++ linesCat (List.filterMap id os) := by
  cases o with
  | none =>
    have h : List.filterMap id (none :: os) = List.filterMap id os :=
      List.filterMap_cons_none rfl
    rw [h]
    exact (str_empty_append _).symm
  | some s =>
    have h : List.filterMap id (some s :: os) = s :: List.filterMap id os :=
      List.filterMap_cons_some rfl
    rw [h]
    rfl

theorem foldl_append_lines {α : Type} (f : α → String) (l : List α) (acc : String) :
    l.foldl (fun a x => a ++ f x ++ "\n") acc = acc ++ linesCat (l.map f) := by
  induction l generalizing acc with
  | nil => exact (str_append_empty acc).symm
  | cons x xs ih =>
    show xs.foldl (fun a x => a ++ f x ++ "\n") ((acc ++ f x) ++ "\n") =
      acc ++ ((f x ++ "\n") ++ linesCat (xs.map f))
    rw [ih]
    simp [str_append_assoc]

theorem vcardFieldSeg (render : String → String) (v : Option String) :
    (if truthyOptStr v then render (v.getD "") ++ "\n" else "") =
      optNL (optFieldLine render v) := by
  cases v with
  | none => rfl
  | some s =>
    by_cases hs : s = ""
    · simp [truthyOptStr, hs, optFieldLine, optNL]
    · simp [truthyOptStr, hs, optFieldLine, optNL]

theorem joinNL_vcard_shape (F K C : List String) (e : String) :
    joinNL (["BEGIN:VCARD", "VERSION:4.0"] ++ F ++ K ++ C ++ [e]) =
      "BEGIN:VCARD\nVERSION:4.0\n" ++
        (linesCat F ++ (linesCat K ++ (linesCat C ++ e))) := by
  have hB : linesCat ["BEGIN:VCARD", "VERSION:4.0"] = "BEGIN:VCARD\nVERSION:4.0\n" := by
    decide
  rw [joinNL_append_last, linesCat_append, linesCat_append, linesCat_append, hB]
  simp [str_append_assoc]

/-- Claim C9: the builder never fails (it is a total formatting function
over its inputs) and its output is exactly the newline-join of: the fixed
header, one line per populated field in the fixed field order (fields whose
value is empty or absent produce no line at all), one
`KEY;TYPE=public;ALG=…;PREF=…;ENCODING=…:` line per key, and the
caller-supplied custom attribute lines, closed by the `END:VCARD` footer. -/
theorem C9_build_vcard_content_lines
    (fn n nickname lang gender email categories bday anniversary kind adr tel impp
      photo note url source : Option String)
    (custom_attributes : List (String × String)) (keys : List VCardKeyInput) :
    build_vcard_content fn n nickname lang gender email categories bday anniversary
        kind adr tel impp photo note url source custom_attributes keys =
      joinNL (vcard_spec_lines fn n nickname lang gender email categories bday
        anniversary kind adr tel impp photo note url source custom_attributes keys) := by
  simp only [build_vcard_content, vcard_spec_lines]
  rw [vcardFieldSeg (fun s => "FN:" ++ s) fn,
      vcardFieldSeg (fun s => "N:" ++ s ++ ";;;;") n,
      vcardFieldSeg (fun s => "NICKNAME:" ++ s) nickname,
      vcardFieldSeg (fun s => "LANG:" ++ s) lang,
      vcardFieldSeg (fun s => "GENDER:" ++ s) gender,
      vcardFieldSeg (fun s => "EMAIL:" ++ s) email,
      vcardFieldSeg (fun s => "CATEGORIES:" ++ s) categories,
      vcardFieldSeg (fun s => "BDAY:" ++ s) bday,
      vcardFieldSeg (fun s => "ANNIVERSARY:" ++ s) anniversary,
      vcardFieldSeg (fun s => "KIND:" ++ s) kind,
      vcardFieldSeg (fun s => "ADR:" ++ s) adr,
      vcardFieldSeg (fun s => "TEL:" ++ s) tel,
      vcardFieldSeg (fun s => "IMPP:" ++ s) impp,
      vcardFieldSeg (fun s => "PHOTO:" ++ s) photo,
      vcardFieldSeg (fun s => "NOTE;LANGUAGE=en-US:" ++ s) note,
      vcardFieldSeg (fun s => "URL:" ++ s) url,
      vcardFieldSeg (fun s => "SOURCE:" ++ s) source,
      foldl_append_lines keyLine keys,
      foldl_append_lines (fun kv => kv.1 ++ ":" ++ kv.2) custom_attributes,
      joinNL_vcard_shape]
  simp only [linesCat_filterMap_cons, List.filterMap_nil, linesCat,
    str_append_assoc, str_append_empty, str_empty_append]
